import Mathlib

/-!
Verification development for the Laboratory API backend (`main.py`, `schemas.py`).

The Python documents (MongoDB / `dict` values) are embedded as association lists
from string keys to a `Value` type covering the value kinds the application
stores: null, booleans, integers, floats (as rationals), strings, ObjectIds,
datetimes and nested dictionaries.  Handlers are embedded as pure functions
from an explicit store state; fallible paths return `Except`.
-/

set_option autoImplicit false

namespace Lab

/-- Timestamps (`datetime.datetime`): broken-down time as stored by the code.
Only construction and ISO-8601 rendering are used by the program. -/
structure Datetime where
  year : Nat
  month : Nat
  day : Nat
  hour : Nat
  minute : Nat
  second : Nat
  microsecond : Nat
deriving DecidableEq, Repr

/-- Left-pad the decimal rendering of `n` with zeros to `width` digits,
as Python `%02d`-style formatting does. -/
def padNum (width n : Nat) : String :=
  let s := toString n
  String.mk (List.replicate (width - s.length) '0') ++ s

/-- `datetime.isoformat()`: `YYYY-MM-DDTHH:MM:SS` plus `.ffffff` when the
microsecond field is nonzero (Python omits it when it is 0). -/
def Datetime.isoformat (d : Datetime) : String :=
  padNum 4 d.year ++ "-" ++ padNum 2 d.month ++ "-" ++ padNum 2 d.day ++ "T" ++
  padNum 2 d.hour ++ ":" ++ padNum 2 d.minute ++ ":" ++ padNum 2 d.second ++
  (if d.microsecond == 0 then "" else "." ++ padNum 6 d.microsecond)

/-- Python `str(datetime)`: same as `isoformat` but with a space separator. -/
def Datetime.pyStr (d : Datetime) : String :=
  padNum 4 d.year ++ "-" ++ padNum 2 d.month ++ "-" ++ padNum 2 d.day ++ " " ++
  padNum 2 d.hour ++ ":" ++ padNum 2 d.minute ++ ":" ++ padNum 2 d.second ++
  (if d.microsecond == 0 then "" else "." ++ padNum 6 d.microsecond)

/-- A hex digit character (lowercase), as produced by `hexdigest` and `str(ObjectId)`. -/
def hexDigitChar (n : Nat) : Char :=
  if n < 10 then Char.ofNat (48 + n) else Char.ofNat (87 + n)

/-- `str(ObjectId)`: the 24-hex-character rendering of the identifier.  ObjectIds are
modelled as natural numbers handed out by the store's fresh-id counter. -/
def oidStr (n : Nat) : String :=
  String.mk (((List.range 24).reverse).map (fun i => hexDigitChar ((n >>> (4 * i)) &&& 15)))

/-- The dynamic values a stored document may hold in this application. -/
inductive Value where
  | vNull : Value
  | vBool : Bool → Value
  | vInt : Int → Value
  /-- Python floats; modelled as rationals (prices/amounts are copied, never computed on). -/
  | vFloat : Rat → Value
  | vStr : String → Value
  /-- A store-generated ObjectId. -/
  | vOid : Nat → Value
  | vDT : Datetime → Value
  /-- A nested dictionary (e.g. the `values` field of a Result). -/
  | vDoc : List (String × Value) → Value
deriving Repr

/-- A Python `dict` / stored document: ordered key/value pairs with (in any
dict actually arising) pairwise-distinct keys. -/
abbrev Doc := List (String × Value)

mutual

/-- Python `==` on the stored value kinds (used by the store's filter matching). -/
def Value.beq : Value → Value → Bool
  | .vNull, .vNull => true
  | .vBool a, .vBool b => a == b
  | .vInt a, .vInt b => a == b
  | .vFloat a, .vFloat b => a == b
  | .vStr a, .vStr b => a == b
  | .vOid a, .vOid b => a == b
  | .vDT a, .vDT b => a == b
  | .vDoc a, .vDoc b => Value.beqFields a b
  | _, _ => false

/-- Pointwise equality of dictionary entries. -/
def Value.beqFields : List (String × Value) → List (String × Value) → Bool
  | [], [] => true
  | (k, v) :: xs, (l, w) :: ys => k == l && Value.beq v w && Value.beqFields xs ys
  | _, _ => false

end

instance : BEq Value := ⟨Value.beq⟩

/-- Python `str()` restricted to the value kinds this application stores.  The code
applies it only to ObjectIds (`str(doc.pop("_id"))`, `str(user["_id"])`) and to
strings/datetimes inside f-strings; nested dictionaries are never stringified, so
that branch is an unreached placeholder. -/
def Value.pyStr : Value → String
  | .vNull => "None"
  | .vBool b => if b then "True" else "False"
  | .vInt n => toString n
  | .vFloat q => toString q
  | .vStr s => s
  | .vOid n => oidStr n
  | .vDT d => d.pyStr
  | .vDoc _ => "dict"

/-- `doc[k]` / `doc.get(k)` / `k in doc`: first (only) binding of `k`. -/
def dLookup : Doc → String → Option Value
  | [], _ => none
  | (k, v) :: rest, key => if k = key then some v else dLookup rest key

/-- Python `doc.pop(k)`'s effect on the dictionary: remove the binding of `k`. -/
def popKey : Doc → String → Doc
  | [], _ => []
  | (k, v) :: rest, key => if k = key then rest else (k, v) :: popKey rest key

/-- Python `doc[k] = v`: overwrite in place when `k` is present (keeping its
position), append otherwise. -/
def setKey : Doc → String → Value → Doc
  | [], key, v => [(key, v)]
  | (k, w) :: rest, key, v =>
      if k = key then (key, v) :: rest else (k, w) :: setKey rest key v

/-- Well-formedness of the embedding: a Python dict has pairwise-distinct keys. -/
def wfDoc (d : Doc) : Prop := (d.map Prod.fst).Nodup

instance (d : Doc) : Decidable (wfDoc d) := by
  unfold wfDoc; infer_instance

/-- The per-value step of `to_str_id`'s datetime loop: a `datetime` value is
replaced by its ISO-8601 string, everything else is left alone. -/
def normVal : Value → Value
  | .vDT t => .vStr t.isoformat
  | v => v

/-- Body of `to_str_id` on an actual dictionary (the non-`None` branch):
rename `_id` to a stringified `id`, then render datetime values as ISO strings. -/
def toStrIdDoc (d : Doc) : Doc :=
  let d1 :=
    match dLookup d "_id" with
    | some v => setKey (popKey d "_id") "id" (.vStr v.pyStr)
    | none => d
  d1.map (fun kv => (kv.1, normVal kv.2))

/-- `to_str_id` (main.py): `None` passes through; otherwise the document is
copied and normalized. -/
def to_str_id : Option Doc → Option Doc
  | none => none
  | some d => some (toStrIdDoc d)

/-! ### SHA-256 (`hashlib.sha256(...).hexdigest()`), over byte lists -/

/-- Truncation to a 32-bit word. -/
def w32 (n : Nat) : Nat := n % 4294967296

/-- 32-bit modular addition. -/
def add32 (a b : Nat) : Nat := (a + b) % 4294967296

/-- 32-bit right rotation. -/
def rotr32 (k x : Nat) : Nat := w32 ((x >>> k) ||| (x <<< (32 - k)))

def capSig0 (x : Nat) : Nat := rotr32 2 x ^^^ rotr32 13 x ^^^ rotr32 22 x

def capSig1 (x : Nat) : Nat := rotr32 6 x ^^^ rotr32 11 x ^^^ rotr32 25 x

def smallSig0 (x : Nat) : Nat := rotr32 7 x ^^^ rotr32 18 x ^^^ (x >>> 3)

def smallSig1 (x : Nat) : Nat := rotr32 17 x ^^^ rotr32 19 x ^^^ (x >>> 10)

def chF (e f g : Nat) : Nat := (e &&& f) ^^^ ((e ^^^ 4294967295) &&& g)

def majF (a b c : Nat) : Nat := (a &&& b) ^^^ (a &&& c) ^^^ (b &&& c)

/-- The 64 SHA-256 round constants of FIPS 180-4 (decimal). -/
def K256 : List Nat :=
  [1116352408, 1899447441, 3049323471, 3921009573, 961987163,
   1508970993, 2453635748, 2870763221, 3624381080, 310598401,
   607225278, 1426881987, 1925078388, 2162078206, 2614888103,
   3248222580, 3835390401, 4022224774, 264347078, 604807628,
   770255983, 1249150122, 1555081692, 1996064986, 2554220882,
   2821834349, 2952996808, 3210313671, 3336571891, 3584528711,
   113926993, 338241895, 666307205, 773529912, 1294757372,
   1396182291, 1695183700, 1986661051, 2177026350, 2456956037,
   2730485921, 2820302411, 3259730800, 3345764771, 3516065817,
   3600352804, 4094571909, 275423344, 430227734, 506948616,
   659060556, 883997877, 958139571, 1322822218, 1537002063,
   1747873779, 1955562222, 2024104815, 2227730452, 2361852424,
   2428436474, 2756734187, 3204031479, 3329325298]

/-- Big-endian rendering of `v` as `n` bytes. -/
def beBytes (n v : Nat) : List Nat :=
  (List.range n).map (fun i => (v >>> (8 * (n - 1 - i))) &&& 255)

/-- SHA-256 message padding: `0x80`, zeros, then the 64-bit big-endian bit length. -/
def padMessage (msg : List Nat) : List Nat :=
  let L := msg.length
  let k := (64 - (L + 9) % 64) % 64
  msg ++ [128] ++ List.replicate k 0 ++ beBytes 8 (8 * L)

/-- Group a byte list into big-endian 32-bit words. -/
def bytesToWords : List Nat → List Nat
  | b0 :: b1 :: b2 :: b3 :: rest =>
      ((b0 <<< 24) ||| (b1 <<< 16) ||| (b2 <<< 8) ||| b3) :: bytesToWords rest
  | _ => []

/-- Split into 64-byte blocks (fuel-based so that the kernel can evaluate it;
`fuel = l.length` always suffices since every step consumes at least one byte). -/
def chunks64Aux : Nat → List Nat → List (List Nat)
  | 0, _ => []
  | _, [] => []
  | fuel + 1, l => l.take 64 :: chunks64Aux fuel (l.drop 64)

/-- Split into 64-byte blocks. -/
def chunks64 (l : List Nat) : List (List Nat) :=
  chunks64Aux l.length l

/-- Extend the 16-word message schedule by `fuel` further words. -/
def extendSchedule (ws : List Nat) : Nat → List Nat
  | 0 => ws
  | fuel + 1 =>
      let n := ws.length
      let w := add32 (add32 (smallSig1 (ws.getD (n - 2) 0)) (ws.getD (n - 7) 0))
                     (add32 (smallSig0 (ws.getD (n - 15) 0)) (ws.getD (n - 16) 0))
      extendSchedule (ws ++ [w]) fuel

/-- The eight 32-bit words of SHA-256 working state. -/
structure Hash8 where
  a : Nat
  b : Nat
  c : Nat
  d : Nat
  e : Nat
  f : Nat
  g : Nat
  h : Nat
deriving DecidableEq, Repr

/-- One SHA-256 compression round. -/
def roundStep (st : Hash8) (kw : Nat × Nat) : Hash8 :=
  let t1 := add32 st.h (add32 (capSig1 st.e) (add32 (chF st.e st.f st.g) (add32 kw.1 kw.2)))
  let t2 := add32 (capSig0 st.a) (majF st.a st.b st.c)
  ⟨add32 t1 t2, st.a, st.b, st.c, add32 st.d t1, st.e, st.f, st.g⟩

/-- Compress one 64-byte block into the running hash state. -/
def compressBlock (hs : Hash8) (block : List Nat) : Hash8 :=
  let ws := extendSchedule (bytesToWords block) 48
  let st := (K256.zip ws).foldl roundStep hs
  ⟨add32 hs.a st.a, add32 hs.b st.b, add32 hs.c st.c, add32 hs.d st.d,
   add32 hs.e st.e, add32 hs.f st.f, add32 hs.g st.g, add32 hs.h st.h⟩

/-- The eight SHA-256 initial hash values of FIPS 180-4 (decimal). -/
def h0 : Hash8 :=
  ⟨1779033703, 3144134277, 1013904242, 2773480762,
   1359893119, 2600822924, 528734635, 1541459225⟩

/-- SHA-256 of a byte sequence. -/
def sha256Bytes (msg : List Nat) : Hash8 :=
  (chunks64 (padMessage msg)).foldl compressBlock h0

/-- UTF-8 encoding of one character (Python `str.encode()`). -/
def utf8Char (c : Char) : List Nat :=
  let n := c.toNat
  if n < 128 then [n]
  else if n < 2048 then [192 ||| (n >>> 6), 128 ||| (n &&& 63)]
  else if n < 65536 then
    [224 ||| (n >>> 12), 128 ||| ((n >>> 6) &&& 63), 128 ||| (n &&& 63)]
  else
    [240 ||| (n >>> 18), 128 ||| ((n >>> 12) &&& 63), 128 ||| ((n >>> 6) &&& 63), 128 ||| (n &&& 63)]

/-- Python `s.encode()`: UTF-8 bytes of a string. -/
def utf8Encode (s : String) : List Nat :=
  (s.data.map utf8Char).flatten

/-- Two lowercase hex characters for one byte. -/
def byteHex (b : Nat) : List Char :=
  [hexDigitChar (b / 16), hexDigitChar (b % 16)]

/-- The 32 digest bytes, big-endian per word. -/
def digestBytes (hs : Hash8) : List Nat :=
  beBytes 4 hs.a ++ beBytes 4 hs.b ++ beBytes 4 hs.c ++ beBytes 4 hs.d ++
  beBytes 4 hs.e ++ beBytes 4 hs.f ++ beBytes 4 hs.g ++ beBytes 4 hs.h

/-- `hashlib.sha256(s.encode()).hexdigest()` as a character list. -/
def sha256hexChars (s : String) : List Char :=
  ((digestBytes (sha256Bytes (utf8Encode s))).map byteHex).flatten

/-- `hashlib.sha256(s.encode()).hexdigest()`. -/
def sha256hex (s : String) : String :=
  String.mk (sha256hexChars s)

/-- `hash_password` (main.py): SHA-256 hexdigest of the UTF-8 password bytes. -/
def hash_password (p : String) : String := sha256hex p

/-! ### Document store

`database.py` is imported by `main.py` but is not part of the sources; the store
operations below are modelled from the spec's Document Store Adapter contract
(§4.1): `insert(collection, document) -> id` and `find(collection, filter)`
matching every key/value pair of the filter, `findOne` returning the first
match or an absence marker. -/

/-- A filter matches a document when every key/value pair of the filter equals
the document's binding for that key (spec §4.1). -/
def docMatches (filt : Doc) (d : Doc) : Bool :=
  filt.all (fun kv => dLookup d kv.1 == some kv.2)

/-- Modelled from the spec: `find(collection, filter)` returns all documents whose
fields match every key/value pair in the filter; the empty filter matches all. -/
def get_documents (docs : List Doc) (filt : Doc) : List Doc :=
  docs.filter (fun d => docMatches filt d)

/-- Modelled from the spec: `findOne` is a convenience returning the first match
or an absence marker. -/
def findOne (docs : List Doc) (filt : Doc) : Option Doc :=
  docs.find? (fun d => docMatches filt d)

/-- The process-wide store state: one document list per collection used by the
application, plus the store's fresh-ObjectId counter. -/
structure DB where
  user : List Doc
  service : List Doc
  payment : List Doc
  result : List Doc
  nextOid : Nat
deriving Repr

/-- The collections addressed by the handlers. -/
inductive Coll where
  | user
  | service
  | payment
  | result

/-- Modelled from the spec: `insert(collection, entity) -> id` persists the
validated entity and returns a newly generated unique identifier (the store
places the generated `_id` first in the stored document, as it is returned by
later `find` calls; the identifier is rendered by `oidStr` where the code uses
it as a string). -/
def create_document (st : DB) (c : Coll) (fields : Doc) : DB × Nat :=
  let d : Doc := ("_id", Value.vOid st.nextOid) :: fields
  (match c with
   | .user => { st with user := st.user ++ [d], nextOid := st.nextOid + 1 }
   | .service => { st with service := st.service ++ [d], nextOid := st.nextOid + 1 }
   | .payment => { st with payment := st.payment ++ [d], nextOid := st.nextOid + 1 }
   | .result => { st with result := st.result ++ [d], nextOid := st.nextOid + 1 },
   st.nextOid)

/-- Every ObjectId stored in a document is strictly below the store's fresh-id
counter (the store's generated identifiers are unique, spec §4.1). -/
def oidFresh (bound : Nat) (d : Doc) : Bool :=
  match dLookup d "_id" with
  | some (.vOid m) => m < bound
  | _ => true

/-- The freshness invariant over the whole store. -/
def DB.oidsFresh (st : DB) : Bool :=
  (st.user ++ st.service ++ st.payment ++ st.result).all (oidFresh st.nextOid)

/-! ### Request/response types and handlers (main.py) -/

/-- Request-level failure: an `HTTPException(status, detail)`, or an unhandled
Python exception (`KeyError` on a malformed stored document, response-model
validation) which FastAPI surfaces as a server error. -/
inductive HErr where
  | http (status : Nat) (detail : String)
  | pyError (msg : String)
deriving DecidableEq, Repr

/-- `SignupRequest` (main.py): name, email, password. -/
structure SignupRequest where
  name : String
  email : String
  password : String
deriving DecidableEq, Repr

/-- `LoginRequest` (main.py): email, password. -/
structure LoginRequest where
  email : String
  password : String
deriving DecidableEq, Repr

/-- `AuthResponse` (main.py): token, name, email. -/
structure AuthResponse where
  token : String
  name : String
  email : String
deriving DecidableEq, Repr

/-- `CreatePayment` (main.py): user_email, service_code. -/
structure CreatePayment where
  user_email : String
  service_code : String
deriving DecidableEq, Repr

/-- Python truthiness of a `find_one` outcome (`if exists:` / `if not user:`):
`None` and the empty dict are falsy. -/
def pyTruthyDoc : Option Doc → Bool
  | none => false
  | some d => !d.isEmpty

/-- The User document persisted by signup: `UserSchema(name=..., email=...,
password_hash=hash_password(...))` with the schema defaults `role="patient"`,
`is_active=True` (schemas.py), fields in declaration order. -/
def signupFields (req : SignupRequest) : Doc :=
  [("name", .vStr req.name), ("email", .vStr req.email),
   ("password_hash", .vStr (hash_password req.password)),
   ("role", .vStr "patient"), ("is_active", .vBool true)]

/-- `signup` (main.py): 400 when a user with the email already exists, otherwise
persist the new User and return a token derived from `email:created_id`. -/
def signup (st : DB) (req : SignupRequest) : Except HErr (DB × AuthResponse) :=
  let found := findOne st.user [("email", .vStr req.email)]
  if pyTruthyDoc found then
    .error (.http 400 "Email already registered")
  else
    let ins := create_document st .user (signupFields req)
    let token := sha256hex (req.email ++ ":" ++ oidStr ins.2)
    .ok (ins.1, ⟨token, req.name, req.email⟩)

/-- `login` (main.py): 401 when no user with the email exists (or the matched
document is falsy), 401 when the stored `password_hash` differs from the hash of
the supplied password, otherwise a token derived from `email:stored_id`. -/
def login (st : DB) (req : LoginRequest) : Except HErr AuthResponse :=
  match findOne st.user [("email", .vStr req.email)] with
  | none => .error (.http 401 "Invalid credentials")
  | some u =>
    if u.isEmpty then .error (.http 401 "Invalid credentials")
    else if !(dLookup u "password_hash" == some (.vStr (hash_password req.password))) then
      .error (.http 401 "Invalid credentials")
    else
      match dLookup u "email", dLookup u "_id", dLookup u "name" with
      | some (.vStr em), some idv, some (.vStr nm) =>
        .ok ⟨sha256hex (em ++ ":" ++ idv.pyStr), nm, em⟩
      | _, _, _ => .error (.pyError "malformed user document")

/-- `float(...)` on the stored value kinds (numeric-string parsing is not
modelled: validated Service documents store `price` as a number). -/
def pyFloat : Value → Option Rat
  | .vFloat q => some q
  | .vInt n => some (n : Rat)
  | .vBool b => some (if b then 1 else 0)
  | _ => none

/-- The payment `reference` (main.py): first 12 hex characters of the SHA-256
hexdigest of `f"{user_id}:{service_code}:{now.isoformat()}"`. -/
def refOf (uidv : Value) (code : String) (now : Datetime) : String :=
  String.mk ((sha256hexChars (uidv.pyStr ++ ":" ++ code ++ ":" ++ now.isoformat)).take 12)

/-- The Payment document fields as constructed by `PaymentSchema(...)` (main.py,
schemas.py), in declaration order. -/
def paymentFields (uid code : String) (amount : Rat) (ref : String) : Doc :=
  [("user_id", .vStr uid), ("service_code", .vStr code),
   ("amount", .vFloat amount), ("status", .vStr "paid"), ("reference", .vStr ref)]

/-- `create_payment` (main.py): resolve user by email and service by code (404
when absent), copy the service price as `amount`, fix `status="paid"`, derive
`reference`, persist, re-fetch by the new id and normalize.  `now` stands for
`datetime.utcnow()` at the time of the call. -/
def create_payment (st : DB) (now : Datetime) (req : CreatePayment) :
    Except HErr (DB × Option Doc) :=
  match findOne st.user [("email", .vStr req.user_email)] with
  | none => .error (.http 404 "User not found")
  | some user =>
  if user.isEmpty then .error (.http 404 "User not found") else
  match findOne st.service [("code", .vStr req.service_code)] with
  | none => .error (.http 404 "Service not found")
  | some service =>
  if service.isEmpty then .error (.http 404 "Service not found") else
  match dLookup service "price" with
  | none => .error (.pyError "KeyError: price")
  | some priceV =>
  match pyFloat priceV with
  | none => .error (.pyError "float() on non-numeric price")
  | some amount =>
  match dLookup user "_id", dLookup service "code" with
  | some uidv, some (.vStr code) =>
    let reference := refOf uidv code now
    let ins := create_document st .payment (paymentFields uidv.pyStr code amount reference)
    .ok (ins.1, to_str_id (findOne ins.1.payment [("_id", .vOid ins.2)]))
  | _, _ => .error (.pyError "malformed user/service document")

/-- `list_results` (main.py): with a truthy `user_email` (present and nonempty),
resolve the user and filter results by the stringified user id, returning `[]`
when no such user exists; otherwise list every Result.  Every returned document
passes through `to_str_id`. -/
def list_results (st : DB) (user_email : Option String) :
    Except HErr (List (Option Doc)) :=
  match user_email with
  | some s =>
    if s.isEmpty then
      .ok ((get_documents st.result []).map (fun x => to_str_id (some x)))
    else
      match findOne st.user [("email", .vStr s)] with
      | none => .ok []
      | some u =>
        if u.isEmpty then .ok []
        else
          match dLookup u "_id" with
          | none => .error (.pyError "KeyError: _id")
          | some idv =>
            .ok ((get_documents st.result [("user_id", .vStr idv.pyStr)]).map
                  (fun x => to_str_id (some x)))
  | none => .ok ((get_documents st.result []).map (fun x => to_str_id (some x)))

/-! ### Request-body validation (FastAPI/pydantic layer) -/

/-- Split a character list at every occurrence of `sep` (the pieces, in order;
an empty input gives one empty piece, like Python `split`). -/
def splitOnChar (sep : Char) : List Char → List (List Char)
  | [] => [[]]
  | c :: rest =>
    match splitOnChar sep rest, c == sep with
    | r, true => [] :: r
    | [], false => [[c]]
    | hd :: tl, false => (c :: hd) :: tl

/-- Modelled from the spec: `EmailStr` ("email syntactically valid", §4.4) —
the external email-validator library is summarized as: exactly one `@`, a
nonempty local part, and a domain of at least two nonempty dot-separated
labels. -/
def isValidEmail (s : String) : Bool :=
  match splitOnChar '@' s.data with
  | [l, d] =>
    !l.isEmpty && decide ((splitOnChar '.' d).length ≥ 2) &&
      (splitOnChar '.' d).all (fun p => !p.isEmpty)
  | _ => false

/-- Pydantic validation of `SignupRequest`: each field must be present (a string);
`name : str` and `password : str` impose no further constraint (in particular the
empty string is accepted); `email : EmailStr` must be syntactically valid.
Validation failure is FastAPI's 422 client error. -/
def validateSignup (name email password : Option String) : Except HErr SignupRequest :=
  match name, email, password with
  | some n, some e, some p =>
    if isValidEmail e then .ok ⟨n, e, p⟩ else .error (.http 422 "validation error")
  | _, _, _ => .error (.http 422 "validation error")

/-- The `/auth/signup` endpoint as seen from the wire: body validation, then the
handler. -/
def signupEndpoint (st : DB) (name email password : Option String) :
    Except HErr (DB × AuthResponse) :=
  match validateSignup name email password with
  | .error e => .error e
  | .ok req => signup st req

/-- The store state after a signup request (unchanged when the request fails). -/
def dbAfterSignup (st : DB) (name email password : Option String) : DB :=
  match signupEndpoint st name email password with
  | .ok x => x.1
  | .error _ => st

/-! ### A heap model for `to_str_id`'s effect on its argument -/

/-- `to_str_id` with dictionary identity made explicit: dictionaries live in a
heap (a list of documents indexed by allocation order) and the argument is a
reference.  `doc = dict(doc)` allocates a fresh copy, and the subsequent
`pop`/assignment/datetime-loop mutations hit only that fresh dictionary. -/
def toStrIdHeap (h : List Doc) (arg : Option Nat) : List Doc × Option Nat :=
  match arg with
  | none => (h, none)
  | some r =>
    match h[r]? with
    | none => (h, none)
    | some d =>
      let r2 := h.length
      let h2 := h ++ [d]
      let h3 := h2.set r2 (toStrIdDoc d)
      (h3, some r2)

/-! ### Derived store/document values used by the theorems and witnesses -/

/-- The Payment document inserted by `create_payment`: fresh `_id` first, then
the schema fields. -/
def newPaymentDoc (st : DB) (now : Datetime) (req : CreatePayment)
    (uidv : Value) (q : Rat) : Doc :=
  ("_id", .vOid st.nextOid) ::
    paymentFields uidv.pyStr req.service_code q (refOf uidv req.service_code now)

/-- A stored Result-like document: `_id`, a string field and a datetime field. -/
def exDoc : Doc :=
  [("_id", .vOid 5), ("name", .vStr "Ana"), ("reported_at", .vDT ⟨2024, 1, 2, 3, 4, 5, 0⟩)]

/-- The empty store. -/
def db0 : DB := ⟨[], [], [], [], 0⟩

/-- A signup request. -/
def reqAna : SignupRequest := ⟨"Ana", "ana@x.com", "pw1"⟩

/-- A stored user for the login witnesses. -/
def userBob : Doc :=
  ("_id", .vOid 0) :: signupFields ⟨"Bob", "bob@x.com", "pw1"⟩

/-- The store holding `userBob`. -/
def dbBob : DB := ⟨[userBob], [], [], [], 1⟩

/-- Witness data for C6: the store produced by `signup db0 reqAna`. -/
def dbAna : DB :=
  { db0 with
    user := db0.user ++ [("_id", .vOid db0.nextOid) :: signupFields reqAna],
    nextOid := db0.nextOid + 1 }

/-- The signup response for `reqAna` against the empty store. -/
def respAna : AuthResponse :=
  ⟨sha256hex (reqAna.email ++ ":" ++ oidStr db0.nextOid), reqAna.name, reqAna.email⟩

/-- A stored User for the payment witness. -/
def userAna : Doc := ("_id", .vOid 0) :: signupFields reqAna

/-- A stored Service for the payment witness. -/
def svcCBC : Doc :=
  [("_id", .vOid 1), ("code", .vStr "CBC"), ("name", .vStr "Complete Blood Count"),
   ("description", .vNull), ("price", .vFloat 30), ("active", .vBool true)]

/-- A store holding `userAna` and `svcCBC`. -/
def db2 : DB := ⟨[userAna], [svcCBC], [], [], 2⟩

/-- A payment request for the witness. -/
def reqPay : CreatePayment := ⟨"ana@x.com", "CBC"⟩

/-- A call timestamp for the witness. -/
def dt1 : Datetime := ⟨2024, 6, 1, 12, 0, 0, 0⟩

/-! ### Lemmas about the dictionary model -/

@[simp]
theorem beq_some_some_val (a b : Value) : ((some a == some b) : Bool) = (a == b) := rfl

@[simp]
theorem beq_none_some_val (b : Value) : ((none == some b) : Bool) = false := rfl

@[simp]
theorem vStr_beq_vStr (s t : String) : (Value.vStr s == Value.vStr t) = (s == t) := rfl

@[simp]
theorem vOid_beq_vOid (m n : Nat) : (Value.vOid m == Value.vOid n) = (m == n) := rfl

theorem Value.beq_vStr_iff (v : Value) (s : String) :
    (Value.beq v (.vStr s) = true) ↔ v = .vStr s := by
  cases v <;> simp [Value.beq]

theorem Value.beq_vOid_iff (v : Value) (n : Nat) :
    (Value.beq v (.vOid n) = true) ↔ v = .vOid n := by
  cases v <;> simp [Value.beq]

theorem beq_some_vStr_iff (o : Option Value) (s : String) :
    ((o == some (Value.vStr s)) = true) ↔ o = some (.vStr s) := by
  cases o with
  | none => simp
  | some v =>
    simp only [beq_some_some_val, Option.some.injEq]
    exact Value.beq_vStr_iff v s

theorem beq_some_vOid_iff (o : Option Value) (n : Nat) :
    ((o == some (Value.vOid n)) = true) ↔ o = some (.vOid n) := by
  cases o with
  | none => simp
  | some v =>
    simp only [beq_some_some_val, Option.some.injEq]
    exact Value.beq_vOid_iff v n

/-- Matching a one-entry string filter is exactly having that binding. -/
theorem docMatches_singleton_vStr (k s : String) (d : Doc) :
    docMatches [(k, .vStr s)] d = true ↔ dLookup d k = some (.vStr s) := by
  simp only [docMatches, List.all_cons, List.all_nil, Bool.and_true]
  exact beq_some_vStr_iff _ s

theorem docMatches_singleton_vOid (k : String) (n : Nat) (d : Doc) :
    docMatches [(k, .vOid n)] d = true ↔ dLookup d k = some (.vOid n) := by
  simp only [docMatches, List.all_cons, List.all_nil, Bool.and_true]
  exact beq_some_vOid_iff _ n

theorem dLookup_isEmpty_false {d : Doc} {k : String} {v : Value}
    (h : dLookup d k = some v) : d.isEmpty = false := by
  cases d with
  | nil => simp [dLookup] at h
  | cons hd tl => rfl

theorem dLookup_map_normVal (d : Doc) (k : String) :
    dLookup (d.map (fun kv => (kv.1, normVal kv.2))) k = (dLookup d k).map normVal := by
  induction d with
  | nil => rfl
  | cons hd tl ih =>
    obtain ⟨a, b⟩ := hd
    by_cases h : a = k
    · simp [dLookup, h]
    · simp [dLookup, h, ih]

theorem dLookup_setKey_self (d : Doc) (k : String) (v : Value) :
    dLookup (setKey d k v) k = some v := by
  induction d with
  | nil => simp [setKey, dLookup]
  | cons hd tl ih =>
    obtain ⟨a, b⟩ := hd
    by_cases h : a = k
    · simp [setKey, h, dLookup]
    · simp [setKey, h, dLookup, ih]

theorem dLookup_setKey_ne (d : Doc) (k k' : String) (v : Value) (h : k' ≠ k) :
    dLookup (setKey d k v) k' = dLookup d k' := by
  induction d with
  | nil =>
    have hne : ¬k = k' := fun hh => h hh.symm
    simp [setKey, dLookup, hne]
  | cons hd tl ih =>
    obtain ⟨a, b⟩ := hd
    by_cases ha : a = k
    · subst ha
      have hne : ¬a = k' := fun hh => h hh.symm
      simp [setKey, dLookup, hne]
    · simp [setKey, ha, dLookup, ih]

theorem dLookup_popKey_ne (d : Doc) (k k' : String) (h : k' ≠ k) :
    dLookup (popKey d k) k' = dLookup d k' := by
  induction d with
  | nil => rfl
  | cons hd tl ih =>
    obtain ⟨a, b⟩ := hd
    by_cases ha : a = k
    · subst ha
      have hne : ¬a = k' := fun hh => h hh.symm
      simp [popKey, dLookup, hne]
    · simp [popKey, ha, dLookup, ih]

theorem dLookup_eq_none_of_not_mem (d : Doc) (k : String)
    (h : k ∉ d.map Prod.fst) : dLookup d k = none := by
  induction d with
  | nil => rfl
  | cons hd tl ih =>
    obtain ⟨a, b⟩ := hd
    simp only [List.map_cons, List.mem_cons, not_or] at h
    have hne : ¬a = k := fun hh => h.1 hh.symm
    simp [dLookup, hne, ih h.2]

theorem dLookup_popKey_self (d : Doc) (k : String) (h : wfDoc d) :
    dLookup (popKey d k) k = none := by
  induction d with
  | nil => rfl
  | cons hd tl ih =>
    obtain ⟨a, b⟩ := hd
    simp only [wfDoc, List.map_cons, List.nodup_cons] at h
    by_cases ha : a = k
    · subst ha
      simpa [popKey] using dLookup_eq_none_of_not_mem tl a h.1
    · simp [popKey, ha, dLookup, ih h.2]

/-- `normVal` never produces a datetime, so it is idempotent. -/
theorem normVal_normVal (v : Value) : normVal (normVal v) = normVal v := by
  cases v <;> rfl

/-! ### Digest length lemmas -/

theorem beBytes_length (n v : Nat) : (beBytes n v).length = n := by
  simp [beBytes]

theorem digestBytes_length (hs : Hash8) : (digestBytes hs).length = 32 := by
  simp [digestBytes, beBytes_length]

theorem flatten_map_byteHex_length (l : List Nat) :
    ((l.map byteHex).flatten).length = 2 * l.length := by
  induction l with
  | nil => rfl
  | cons hd tl ih =>
    simp [byteHex, ih]
    omega

theorem sha256hexChars_length (s : String) : (sha256hexChars s).length = 64 := by
  unfold sha256hexChars
  rw [flatten_map_byteHex_length, digestBytes_length]

/-- The hexdigest has 64 characters. -/
theorem sha256hex_length (s : String) : (sha256hex s).length = 64 := by
  simpa [sha256hex, String.length] using sha256hexChars_length s

/-- The payment reference always has exactly 12 characters. -/
theorem refOf_length (uidv : Value) (code : String) (now : Datetime) :
    (refOf uidv code now).length = 12 := by
  simp [refOf, String.length, sha256hexChars_length]

/-! ### Helper lemmas about the normalizer -/

/-- When the document has no `_id`, `to_str_id` only renders datetimes. -/
theorem toStrIdDoc_no_id (d : Doc) (h : dLookup d "_id" = none) :
    toStrIdDoc d = d.map (fun kv => (kv.1, normVal kv.2)) := by
  simp [toStrIdDoc, h]

/-- When the document has an `_id`, `to_str_id` pops it, appends the
stringified `id`, and renders datetimes. -/
theorem toStrIdDoc_with_id (d : Doc) (v : Value) (h : dLookup d "_id" = some v) :
    toStrIdDoc d =
      (setKey (popKey d "_id") "id" (.vStr v.pyStr)).map (fun kv => (kv.1, normVal kv.2)) := by
  simp [toStrIdDoc, h]

/-- Rendering datetimes twice is the same as rendering them once. -/
theorem map_normVal_idem (d : Doc) :
    (d.map (fun kv => (kv.1, normVal kv.2))).map (fun kv => (kv.1, normVal kv.2)) =
      d.map (fun kv => (kv.1, normVal kv.2)) := by
  induction d with
  | nil => rfl
  | cons hd tl ih => simp [normVal_normVal, ih]

/-- After one application of the normalizer no `_id` field remains. -/
theorem toStrIdDoc_lookup_underscore_id (d : Doc) (h : wfDoc d) :
    dLookup (toStrIdDoc d) "_id" = none := by
  cases hid : dLookup d "_id" with
  | none => rw [toStrIdDoc_no_id d hid, dLookup_map_normVal, hid]; rfl
  | some v =>
    rw [toStrIdDoc_with_id d v hid, dLookup_map_normVal,
      dLookup_setKey_ne _ _ _ _ (by decide), dLookup_popKey_self _ _ h]
    rfl

end Lab

namespace Lab

/-! ### C1 — normalizer output shape -/

/-- C1: `to_str_id(None) = None`, and for every well-formed stored document
carrying the internal identifier field `_id` (an ObjectId) and no prior `id`
key, the output is the document with a string-valued `id` field (the
stringified ObjectId), no `_id` field, every datetime-typed field rendered as
its ISO-8601 string, and every other field unchanged. -/
theorem to_str_id_output_shape :
    to_str_id none = none ∧
    ∀ (d : Doc) (oid : Nat), wfDoc d →
      dLookup d "_id" = some (.vOid oid) →
      dLookup d "id" = none →
      to_str_id (some d) = some (toStrIdDoc d) ∧
      dLookup (toStrIdDoc d) "id" = some (.vStr (oidStr oid)) ∧
      dLookup (toStrIdDoc d) "_id" = none ∧
      (∀ k, k ≠ "_id" → k ≠ "id" →
        dLookup (toStrIdDoc d) k = (dLookup d k).map normVal) ∧
      (∀ (k : String) (t : Datetime), dLookup d k = some (.vDT t) →
        dLookup (toStrIdDoc d) k = some (.vStr t.isoformat)) := by
  refine ⟨rfl, ?_⟩
  intro d oid hwf hid hnoid
  have hstep := toStrIdDoc_with_id d (.vOid oid) hid
  have hothers : ∀ k, k ≠ "_id" → k ≠ "id" →
      dLookup (toStrIdDoc d) k = (dLookup d k).map normVal := by
    intro k hk1 hk2
    rw [hstep, dLookup_map_normVal, dLookup_setKey_ne _ _ _ _ hk2,
      dLookup_popKey_ne _ _ _ hk1]
  refine ⟨rfl, ?_, ?_, hothers, ?_⟩
  · rw [hstep, dLookup_map_normVal, dLookup_setKey_self]
    rfl
  · rw [hstep, dLookup_map_normVal, dLookup_setKey_ne _ _ _ _ (by decide),
      dLookup_popKey_self _ _ hwf]
    rfl
  · intro k t hkt
    have hk1 : k ≠ "_id" := by
      intro he
      rw [he, hid] at hkt
      cases hkt
    have hk2 : k ≠ "id" := by
      intro he
      rw [he, hnoid] at hkt
      cases hkt
    rw [hothers k hk1 hk2, hkt]
    rfl

/-- Witness for C1 at a concrete stored document. -/
theorem to_str_id_output_shape_witness :
    dLookup (toStrIdDoc exDoc) "id" = some (.vStr (oidStr 5)) ∧
    dLookup (toStrIdDoc exDoc) "_id" = none ∧
    dLookup (toStrIdDoc exDoc) "reported_at" =
      some (.vStr (Datetime.isoformat ⟨2024, 1, 2, 3, 4, 5, 0⟩)) := by
  have h := to_str_id_output_shape.2 exDoc 5 (by decide) rfl rfl
  exact ⟨h.2.1, h.2.2.1, h.2.2.2.2 "reported_at" ⟨2024, 1, 2, 3, 4, 5, 0⟩ rfl⟩

/-! ### C10 — normalizer idempotence -/

/-- C10: the normalizer is idempotent — applying `to_str_id` twice yields the
same result as applying it once (after one application no `_id` remains and
every datetime has become a string). -/
theorem to_str_id_idempotent :
    to_str_id (to_str_id none) = to_str_id none ∧
    ∀ d : Doc, wfDoc d → to_str_id (to_str_id (some d)) = to_str_id (some d) := by
  refine ⟨rfl, ?_⟩
  intro d hwf
  show some (toStrIdDoc (toStrIdDoc d)) = some (toStrIdDoc d)
  congr 1
  rw [toStrIdDoc_no_id _ (toStrIdDoc_lookup_underscore_id d hwf)]
  cases hid : dLookup d "_id" with
  | none => rw [toStrIdDoc_no_id d hid, map_normVal_idem]
  | some v => rw [toStrIdDoc_with_id d v hid, map_normVal_idem]

/-- Witness for C10 at a concrete stored document. -/
theorem to_str_id_idempotent_witness :
    to_str_id (to_str_id (some exDoc)) = to_str_id (some exDoc) :=
  to_str_id_idempotent.2 exDoc (by decide)

/-! ### C8 — normalizer purity (explicit-heap model) -/

/-- C8: `to_str_id` is pure: in the explicit-heap model the caller's document
is unchanged after the call (the function copies its argument before mutating),
and the produced document's content is a function of the input content alone
(`toStrIdDoc d`). -/
theorem to_str_id_pure (h : List Doc) (r : Nat) (d : Doc)
    (hr : h[r]? = some d) :
    (toStrIdHeap h (some r)).1[r]? = some d ∧
    (toStrIdHeap h (some r)).2 = some h.length ∧
    (toStrIdHeap h (some r)).1[h.length]? = some (toStrIdDoc d) := by
  have hlt : r < h.length := by
    rcases List.getElem?_eq_some_iff.mp hr with ⟨hl, _⟩
    exact hl
  have hset : (h ++ [d]).set h.length (toStrIdDoc d) = h ++ [toStrIdDoc d] := by
    have : ∀ (l : List Doc) (x y : Doc), (l ++ [x]).set l.length y = l ++ [y] := by
      intro l
      induction l with
      | nil => intro x y; rfl
      | cons a tl ih =>
        intro x y
        show a :: (tl ++ [x]).set tl.length y = a :: (tl ++ [y])
        rw [ih]
    exact this h d (toStrIdDoc d)
  simp only [toStrIdHeap, hr, hset]
  refine ⟨?_, trivial, ?_⟩
  · rw [List.getElem?_append_left hlt]
    exact hr
  · exact List.getElem?_concat_length h (toStrIdDoc d)

/-- Witness for C8 on a one-document heap. -/
theorem to_str_id_pure_witness :
    (toStrIdHeap [exDoc] (some 0)).1[0]? = some exDoc ∧
    (toStrIdHeap [exDoc] (some 0)).2 = some 1 ∧
    (toStrIdHeap [exDoc] (some 0)).1[1]? = some (toStrIdDoc exDoc) := by
  have h := to_str_id_pure [exDoc] 0 exDoc rfl
  exact h

/-! ### Helper lemmas about the store -/

/-- The empty filter keeps every document (`find` with `filt = {}`). -/
theorem get_documents_empty_filter (docs : List Doc) : get_documents docs [] = docs := by
  unfold get_documents
  induction docs with
  | nil => rfl
  | cons hd tl ih => rw [List.filter_cons_of_pos (by rfl), ih]

/-! ### C9 — empty-string filter behaves as an omitted filter -/

/-- C9: a `GET /results` request whose `user_email` is the empty string takes
the same branch as an omitted filter (Python truthiness), returning all Result
documents rather than resolving `""` as an email. -/
theorem list_results_empty_string_filter (st : DB) :
    list_results st (some "") = list_results st none := rfl

/-! ### C7 — missing filter user yields an empty list; no filter yields all -/

/-- C7: when the `user_email` filter matches no User document the result is the
empty list, not an error; when the filter is omitted, every Result document is
returned, each passed through the normalizer. -/
theorem list_results_filter_behavior :
    (∀ (st : DB) (e : String), e ≠ "" →
      findOne st.user [("email", .vStr e)] = none →
      list_results st (some e) = .ok []) ∧
    (∀ st : DB,
      list_results st none = .ok (st.result.map (fun x => to_str_id (some x)))) := by
  constructor
  · intro st e he hno
    have hne : e.isEmpty = false := by
      cases he' : e.isEmpty
      · rfl
      · exact absurd ((String.isEmpty_iff e).mp he') he
    simp [list_results, hne, hno]
  · intro st
    simp [list_results, get_documents_empty_filter]

/-- Witness for C7: an unknown filter email over a store with one user. -/
theorem list_results_filter_behavior_witness :
    list_results { db0 with user := [exDoc] } (some "ghost@x.com") = .ok [] :=
  list_results_filter_behavior.1 { db0 with user := [exDoc] } "ghost@x.com"
    (by decide) rfl

/-! ### Helper lemmas about `findOne` and truthiness -/

/-- The first match of a one-entry string filter carries that binding. -/
theorem findOne_some_vStr {docs : List Doc} {k s : String} {u : Doc}
    (h : findOne docs [(k, .vStr s)] = some u) : dLookup u k = some (.vStr s) :=
  (docMatches_singleton_vStr k s u).mp (List.find?_some h)

/-- A `find_one` outcome on a one-entry string filter is truthy exactly when a
matching document exists (a match is never the empty dict, since it carries the
filtered binding). -/
theorem pyTruthy_findOne_vStr (docs : List Doc) (k s : String) :
    pyTruthyDoc (findOne docs [(k, .vStr s)]) = true ↔
      ∃ d ∈ docs, dLookup d k = some (.vStr s) := by
  constructor
  · intro h
    cases hf : findOne docs [(k, .vStr s)] with
    | none => rw [hf] at h; simp [pyTruthyDoc] at h
    | some u =>
      exact ⟨u, List.mem_of_find?_eq_some hf, findOne_some_vStr hf⟩
  · rintro ⟨d, hd, hlk⟩
    have hsome : (findOne docs [(k, .vStr s)]).isSome := by
      unfold findOne
      exact List.find?_isSome.mpr ⟨d, hd, (docMatches_singleton_vStr k s d).mpr hlk⟩
    obtain ⟨u, hu⟩ := Option.isSome_iff_exists.mp hsome
    rw [hu]
    simp [pyTruthyDoc, dLookup_isEmpty_false (findOne_some_vStr hu)]

/-- A falsy `find_one` outcome on a one-entry string filter is `None`. -/
theorem pyTruthy_false_findOne_none {docs : List Doc} {k s : String}
    (h : pyTruthyDoc (findOne docs [(k, .vStr s)]) = false) :
    findOne docs [(k, .vStr s)] = none := by
  cases hf : findOne docs [(k, .vStr s)] with
  | none => rfl
  | some u =>
    rw [hf] at h
    simp [pyTruthyDoc, dLookup_isEmpty_false (findOne_some_vStr hf)] at h

/-- Successful login: when the matched user document carries the expected
fields, the handler returns the token derived from `email:stored_id`. -/
theorem login_token_formula {st : DB} {u : Doc} {e pw nm : String} {oid : Nat}
    (hu : findOne st.user [("email", .vStr e)] = some u)
    (hemail : dLookup u "email" = some (.vStr e))
    (hid : dLookup u "_id" = some (.vOid oid))
    (hname : dLookup u "name" = some (.vStr nm))
    (hhash : dLookup u "password_hash" = some (.vStr (hash_password pw))) :
    login st ⟨e, pw⟩ = .ok ⟨sha256hex (e ++ ":" ++ oidStr oid), nm, e⟩ := by
  have hne : u.isEmpty = false := dLookup_isEmpty_false hemail
  have hbeq : (dLookup u "password_hash" == some (.vStr (hash_password pw))) = true := by
    rw [hhash]
    simp [Value.beq]
  simp [login, hu, hne, hbeq, hemail, hid, hname, Value.pyStr]

/-! ### C3 — login failures are indistinguishable -/

/-- C3: the login failure for a nonexistent email and the failure for an
existing user with a non-matching password hash are the same response — the
same 401 status with the same message — so an observer cannot tell the two
causes apart. -/
theorem login_failures_indistinguishable (st : DB) (e₁ p₁ e₂ p₂ : String)
    (h1 : findOne st.user [("email", .vStr e₁)] = none)
    (h2 : ∀ u, findOne st.user [("email", .vStr e₂)] = some u →
      dLookup u "password_hash" ≠ some (.vStr (hash_password p₂)))
    (h3 : (findOne st.user [("email", .vStr e₂)]).isSome = true) :
    login st ⟨e₁, p₁⟩ = .error (.http 401 "Invalid credentials") ∧
    login st ⟨e₂, p₂⟩ = .error (.http 401 "Invalid credentials") ∧
    login st ⟨e₁, p₁⟩ = login st ⟨e₂, p₂⟩ := by
  have hA : login st ⟨e₁, p₁⟩ = .error (.http 401 "Invalid credentials") := by
    simp [login, h1]
  have hB : login st ⟨e₂, p₂⟩ = .error (.http 401 "Invalid credentials") := by
    obtain ⟨u, hu⟩ := Option.isSome_iff_exists.mp h3
    have hmm := h2 u hu
    have hbeq : (dLookup u "password_hash" == some (.vStr (hash_password p₂))) = false := by
      cases hbb : (dLookup u "password_hash" == some (.vStr (hash_password p₂)))
      · rfl
      · exact absurd ((beq_some_vStr_iff _ _).mp hbb) hmm
    by_cases hemp : u.isEmpty
    · simp [login, hu, hemp]
    · simp [login, hu, hemp, hbeq]
  exact ⟨hA, hB, by rw [hA, hB]⟩

/-- Witness for C3: unknown email vs. wrong password against a concrete store. -/
theorem login_failures_indistinguishable_witness :
    login dbBob ⟨"ghost@x.com", "pw1"⟩ = .error (.http 401 "Invalid credentials") ∧
    login dbBob ⟨"bob@x.com", "wrong"⟩ = .error (.http 401 "Invalid credentials") ∧
    login dbBob ⟨"ghost@x.com", "pw1"⟩ = login dbBob ⟨"bob@x.com", "wrong"⟩ := by
  refine login_failures_indistinguishable dbBob "ghost@x.com" "pw1" "bob@x.com" "wrong"
    rfl ?_ rfl
  intro u hu heq
  have h0 : findOne dbBob.user [("email", Value.vStr "bob@x.com")] = some userBob := rfl
  rw [h0] at hu
  cases hu
  have h1 : dLookup userBob "password_hash" =
      some (.vStr (hash_password "pw1")) := rfl
  rw [h1] at heq
  injection heq with h2
  injection h2 with h3
  exact absurd h3 (by decide)

/-! ### C5 — duplicate-email signup -/

/-- Successful signup computed explicitly (no user with the email is truthy). -/
theorem signup_eq_ok {st : DB} {req : SignupRequest}
    (hb : pyTruthyDoc (findOne st.user [("email", .vStr req.email)]) = false) :
    signup st req =
      .ok ({ st with
             user := st.user ++ [("_id", .vOid st.nextOid) :: signupFields req],
             nextOid := st.nextOid + 1 },
           ⟨sha256hex (req.email ++ ":" ++ oidStr st.nextOid), req.name, req.email⟩) := by
  simp [signup, hb, create_document]

/-- C5: signup fails with 400 "Email already registered" exactly when a User
document with the requested email exists in the store; otherwise the User is
created (appended to the user collection with a fresh id) and a success
response carrying a token is returned. -/
theorem signup_duplicate_email (st : DB) (req : SignupRequest) :
    (signup st req = .error (.http 400 "Email already registered") ↔
      ∃ d ∈ st.user, dLookup d "email" = some (.vStr req.email)) ∧
    ((¬ ∃ d ∈ st.user, dLookup d "email" = some (.vStr req.email)) →
      signup st req =
        .ok ({ st with
               user := st.user ++ [("_id", .vOid st.nextOid) :: signupFields req],
               nextOid := st.nextOid + 1 },
             ⟨sha256hex (req.email ++ ":" ++ oidStr st.nextOid), req.name, req.email⟩)) := by
  have hchar := pyTruthy_findOne_vStr st.user "email" req.email
  constructor
  · constructor
    · intro h
      cases hb : pyTruthyDoc (findOne st.user [("email", .vStr req.email)]) with
      | true => exact hchar.mp hb
      | false =>
        rw [signup_eq_ok hb] at h
        cases h
    · intro hex
      simp [signup, hchar.mpr hex]
  · intro hnex
    cases hb : pyTruthyDoc (findOne st.user [("email", .vStr req.email)]) with
    | true => exact absurd (hchar.mp hb) hnex
    | false => exact signup_eq_ok hb

/-- Witness for C5: signup against the empty store creates the user. -/
theorem signup_duplicate_email_witness :
    signup db0 reqAna =
      .ok ({ db0 with
             user := db0.user ++ [("_id", .vOid db0.nextOid) :: signupFields reqAna],
             nextOid := db0.nextOid + 1 },
           ⟨sha256hex (reqAna.email ++ ":" ++ oidStr db0.nextOid), reqAna.name, reqAna.email⟩) :=
  (signup_duplicate_email db0 reqAna).2 (by simp [db0])

/-! ### C6 — the signup token and later login tokens agree -/

/-- The components of a successful signup. -/
theorem signup_ok_components {st : DB} {req : SignupRequest} {st2 : DB} {r : AuthResponse}
    (hs : signup st req = .ok (st2, r)) :
    pyTruthyDoc (findOne st.user [("email", .vStr req.email)]) = false ∧
    st2 = { st with
            user := st.user ++ [("_id", .vOid st.nextOid) :: signupFields req],
            nextOid := st.nextOid + 1 } ∧
    r = ⟨sha256hex (req.email ++ ":" ++ oidStr st.nextOid), req.name, req.email⟩ := by
  cases hb : pyTruthyDoc (findOne st.user [("email", .vStr req.email)]) with
  | true =>
    exfalso
    simp [signup, hb] at hs
  | false =>
    have he := (signup_eq_ok hb).symm.trans hs
    injection he with hpair
    exact ⟨rfl, (congrArg Prod.fst hpair).symm, (congrArg Prod.snd hpair).symm⟩

/-- C6: the signup token is the digest of `email:store_id` for the freshly
created id, an immediate login with the same credentials returns the very same
token, and in general any later successful login that resolves the same user
(same email, same stored id) returns the signup token. -/
theorem signup_login_token_consistent (st : DB) (req : SignupRequest)
    (st2 : DB) (r : AuthResponse) (hs : signup st req = .ok (st2, r)) :
    r.token = sha256hex (req.email ++ ":" ++ oidStr st.nextOid) ∧
    login st2 ⟨req.email, req.password⟩ = .ok ⟨r.token, req.name, req.email⟩ ∧
    (∀ (st3 : DB) (u : Doc) (pw nm : String),
      findOne st3.user [("email", .vStr req.email)] = some u →
      dLookup u "email" = some (.vStr req.email) →
      dLookup u "_id" = some (.vOid st.nextOid) →
      dLookup u "name" = some (.vStr nm) →
      dLookup u "password_hash" = some (.vStr (hash_password pw)) →
      login st3 ⟨req.email, pw⟩ = .ok ⟨r.token, nm, req.email⟩) := by
  obtain ⟨hb, hst2, hr⟩ := signup_ok_components hs
  have htok : r.token = sha256hex (req.email ++ ":" ++ oidStr st.nextOid) := by rw [hr]
  have hgen : ∀ (st3 : DB) (u : Doc) (pw nm : String),
      findOne st3.user [("email", .vStr req.email)] = some u →
      dLookup u "email" = some (.vStr req.email) →
      dLookup u "_id" = some (.vOid st.nextOid) →
      dLookup u "name" = some (.vStr nm) →
      dLookup u "password_hash" = some (.vStr (hash_password pw)) →
      login st3 ⟨req.email, pw⟩ = .ok ⟨r.token, nm, req.email⟩ := by
    intro st3 u pw nm h1 h2 h3 h4 h5
    rw [htok]
    exact login_token_formula h1 h2 h3 h4 h5
  refine ⟨htok, ?_, hgen⟩
  have hfind : findOne st2.user [("email", .vStr req.email)] =
      some (("_id", .vOid st.nextOid) :: signupFields req) := by
    rw [hst2]
    show findOne (st.user ++ [("_id", .vOid st.nextOid) :: signupFields req]) _ = _
    have hnone : st.user.find? (fun d => docMatches [("email", .vStr req.email)] d) = none :=
      pyTruthy_false_findOne_none hb
    have hpos : docMatches [("email", .vStr req.email)]
        (("_id", .vOid st.nextOid) :: signupFields req) = true :=
      (docMatches_singleton_vStr _ _ _).mpr rfl
    unfold findOne
    rw [List.find?_append, hnone, Option.none_or, List.find?_cons_of_pos _ hpos]
  exact hgen st2 _ req.password req.name hfind rfl rfl rfl rfl

/-- Witness for C6: concrete signup followed by a login with the same
credentials returns the identical token. -/
theorem signup_login_token_consistent_witness :
    respAna.token = sha256hex (reqAna.email ++ ":" ++ oidStr db0.nextOid) ∧
    login dbAna ⟨reqAna.email, reqAna.password⟩ =
      .ok ⟨respAna.token, reqAna.name, reqAna.email⟩ := by
  have h := signup_login_token_consistent db0 reqAna dbAna respAna rfl
  exact ⟨h.1, h.2.1⟩

/-! ### C2 — payment creation -/

/-- Looking up a freshly inserted document by its new ObjectId finds exactly it
(no earlier document carries the fresh id, by the store's uniqueness). -/
theorem findOne_fresh_append (docs : List Doc) (bound : Nat) (nd : Doc)
    (hall : docs.all (oidFresh bound) = true)
    (hnd : dLookup nd "_id" = some (.vOid bound)) :
    findOne (docs ++ [nd]) [("_id", .vOid bound)] = some nd := by
  unfold findOne
  rw [List.find?_append]
  have hnone : docs.find? (fun d => docMatches [("_id", .vOid bound)] d) = none := by
    rw [List.find?_eq_none]
    intro d hd hmatch
    have hlk := (docMatches_singleton_vOid "_id" bound d).mp hmatch
    have hof := (List.all_eq_true.mp hall) d hd
    rw [oidFresh, hlk] at hof
    simp at hof
  rw [hnone, Option.none_or]
  exact List.find?_cons_of_pos _ ((docMatches_singleton_vOid "_id" bound nd).mpr hnd)

/-- C2: when the user and the service exist, `create_payment` persists a
Payment whose `amount` is exactly the service's current price, whose `status`
is the fixed string `"paid"`, and whose `reference` is the 12-character prefix
of the hexdigest of `user_id:service_code:timestamp` — deterministic in those
three inputs — and returns the normalized created document. -/
theorem create_payment_spec (st : DB) (now : Datetime) (req : CreatePayment)
    (user service : Doc) (uidv : Value) (q : Rat)
    (hfresh : st.oidsFresh = true)
    (hu : findOne st.user [("email", .vStr req.user_email)] = some user)
    (hid : dLookup user "_id" = some uidv)
    (hsv : findOne st.service [("code", .vStr req.service_code)] = some service)
    (hp : dLookup service "price" = some (.vFloat q)) :
    create_payment st now req =
      .ok ({ st with
             payment := st.payment ++ [newPaymentDoc st now req uidv q],
             nextOid := st.nextOid + 1 },
           some (toStrIdDoc (newPaymentDoc st now req uidv q))) ∧
    dLookup (toStrIdDoc (newPaymentDoc st now req uidv q)) "amount" = some (.vFloat q) ∧
    dLookup (toStrIdDoc (newPaymentDoc st now req uidv q)) "status" = some (.vStr "paid") ∧
    dLookup (toStrIdDoc (newPaymentDoc st now req uidv q)) "reference" =
      some (.vStr (refOf uidv req.service_code now)) ∧
    (refOf uidv req.service_code now).length = 12 := by
  have hemail := findOne_some_vStr hu
  have hcode := findOne_some_vStr hsv
  have hue : user.isEmpty = false := dLookup_isEmpty_false hemail
  have hse : service.isEmpty = false := dLookup_isEmpty_false hcode
  have hallp : st.payment.all (oidFresh st.nextOid) = true := by
    rw [List.all_eq_true]
    intro x hx
    have hmem : x ∈ st.user ++ st.service ++ st.payment ++ st.result := by
      simp [List.mem_append, hx]
    exact List.all_eq_true.mp hfresh x hmem
  have href := findOne_fresh_append st.payment st.nextOid
    (newPaymentDoc st now req uidv q) hallp rfl
  refine ⟨?_, rfl, rfl, rfl, refOf_length uidv req.service_code now⟩
  simp only [create_payment, hu, hue, hsv, hse, hp, pyFloat, hid, hcode,
    create_document, Bool.false_eq_true, if_false]
  simp only [newPaymentDoc] at href ⊢
  rw [href]
  rfl

/-- Witness for C2 on a concrete store, service price 30. -/
theorem create_payment_spec_witness :
    dLookup (toStrIdDoc (newPaymentDoc db2 dt1 reqPay (.vOid 0) 30)) "amount" =
      some (.vFloat 30) ∧
    dLookup (toStrIdDoc (newPaymentDoc db2 dt1 reqPay (.vOid 0) 30)) "status" =
      some (.vStr "paid") ∧
    (refOf (.vOid 0) reqPay.service_code dt1).length = 12 := by
  have h := create_payment_spec db2 dt1 reqPay userAna svcCBC (.vOid 0) 30
    rfl rfl rfl rfl rfl
  exact ⟨h.2.1, h.2.2.1, h.2.2.2.2⟩

/-! ### C4 — signup request validation -/

/-- A validated signup request consists of the three present fields, with only
the email constrained (pydantic `str` accepts any string, empty included). -/
theorem validateSignup_ok {n e p : Option String} {req : SignupRequest}
    (h : validateSignup n e p = .ok req) :
    n = some req.name ∧ e = some req.email ∧ p = some req.password ∧
      isValidEmail req.email = true := by
  cases n with
  | none => simp [validateSignup] at h
  | some a =>
    cases e with
    | none => simp [validateSignup] at h
    | some b =>
      cases p with
      | none => simp [validateSignup] at h
      | some c =>
        simp only [validateSignup] at h
        cases hv : isValidEmail b with
        | false =>
          rw [hv] at h
          simp at h
        | true =>
          rw [hv] at h
          simp only [if_true] at h
          injection h with h2
          cases h2
          exact ⟨rfl, rfl, rfl, hv⟩

/-- C4 counterexample: a signup request whose name is the empty string passes
validation and persists a User — it is not rejected with an Invalid-Input
condition. -/
theorem signup_empty_name_not_rejected :
    signupEndpoint db0 (some "") (some "ana@x.com") (some "pw") =
      .ok ({ db0 with
             user := db0.user ++ [("_id", .vOid db0.nextOid) ::
               signupFields ⟨"", "ana@x.com", "pw"⟩],
             nextOid := db0.nextOid + 1 },
           ⟨sha256hex ("ana@x.com" ++ ":" ++ oidStr db0.nextOid), "", "ana@x.com"⟩) := rfl

/-- C4 (amended): the validation layer rejects a signup request with an
Invalid-Input condition — before any User document is persisted — exactly when
a field is missing or the email is syntactically invalid; the name and the
password carry no content constraint (the empty string is accepted), so only
the email gates which requests may create a User. -/
theorem signup_validation_amended :
    (∀ (st : DB) (n e p : Option String) (x : DB × AuthResponse),
      signupEndpoint st n e p = .ok x →
      n.isSome = true ∧ p.isSome = true ∧
        ∃ em, e = some em ∧ isValidEmail em = true) ∧
    (∀ (st : DB) (n e p : Option String) (err : HErr),
      validateSignup n e p = .error err →
      signupEndpoint st n e p = .error err ∧ dbAfterSignup st n e p = st) := by
  constructor
  · intro st n e p x hok
    unfold signupEndpoint at hok
    cases hv : validateSignup n e p with
    | error err =>
      rw [hv] at hok
      cases hok
    | ok req =>
      obtain ⟨h1, h2, h3, h4⟩ := validateSignup_ok hv
      refine ⟨?_, ?_, req.email, h2, h4⟩
      · rw [h1]; rfl
      · rw [h3]; rfl
  · intro st n e p err hv
    refine ⟨?_, ?_⟩
    · unfold signupEndpoint
      rw [hv]
    · unfold dbAfterSignup signupEndpoint
      rw [hv]

/-- Witness for the amended C4: a request with a missing email is rejected and
leaves the store untouched. -/
theorem signup_validation_amended_witness :
    signupEndpoint db0 (some "Ana") none (some "pw") =
      .error (.http 422 "validation error") ∧
    dbAfterSignup db0 (some "Ana") none (some "pw") = db0 :=
  signup_validation_amended.2 db0 (some "Ana") none (some "pw")
    (.http 422 "validation error") rfl

end Lab
